import Mathlib

/-!
Verification of the Edge.Scraper.Pro repository (two Python scripts:
src/simple_scraper.py and src/fixed_scraper.py).

The network is the only external effect of the probing code, so it is
modelled as an oracle: a function from a URL string to the outcome of the
HTTP GET issued for it.  For src/simple_scraper.py (urllib semantics) an
outcome is a successful response, an HTTPError carrying a status code, or
any other exception; for src/fixed_scraper.py (requests semantics) an
outcome is a response with an arbitrary status code or a RequestException.
All remaining logic of the two scripts is pure and is translated directly.
Strings are Lean strings (Python str slices count code points, as does
String.take).
-/

set_option autoImplicit false

namespace Scraper

/-- Outcome of urllib.request.urlopen for one URL, as observed by
simple_scraper.test_url: a response object (urlopen only returns for
non-error statuses), an urllib.error.HTTPError with a status code, or any
other exception with its string description. -/
inductive ProbeOutcome where
  | httpResponse (code : Nat) (body : String) (headers : List (String × String))
  | httpError (code : Nat) (reason : String) (body : String)
  | netError (desc : String)
  deriving Repr, DecidableEq

/-- Network oracle for simple_scraper: what the GET of each URL returns. -/
def ProbeCtx : Type := String → ProbeOutcome

/-- Result dictionary built by SimpleD2PScraper.test_url.  Optional fields
model keys that are present only on some paths of the Python function;
original_url models the key added afterwards by scrape_original_urls. -/
structure ProbeResult where
  url : String
  status_code : Option Nat
  success : Bool
  content_length : Option Nat
  content_preview : String
  error : Option String
  headers : Option (List (String × String))
  original_url : Option String := none
  deriving Repr, DecidableEq

/-- Translation of SimpleD2PScraper.test_url (src/simple_scraper.py lines
29-56): the try/except is total, every outcome is converted into a result
dictionary and nothing is re-raised. -/
def test_url (ctx : ProbeCtx) (url : String) : ProbeResult :=
  match ctx url with
  | ProbeOutcome.httpResponse code body hdrs =>
      { url := url
        status_code := some code
        success := true
        content_length := some body.length
        content_preview := if body = "" then "Empty response" else body.take 300
        error := none
        headers := some hdrs }
  | ProbeOutcome.httpError code reason body =>
      { url := url
        status_code := some code
        success := false
        content_length := none
        content_preview := body.take 200
        error := some ("HTTP " ++ toString code ++ ": " ++ reason)
        headers := none }
  | ProbeOutcome.netError desc =>
      { url := url
        status_code := none
        success := false
        content_length := none
        content_preview := "No content"
        error := some desc
        headers := none }

/-- The summary dictionary built by explore_site; failed is a Python int
subtraction, kept as Int. -/
structure ExploreSummary where
  total_tested : Nat
  successful : Nat
  failed : Int
  deriving Repr, DecidableEq

/-- Return value of SimpleD2PScraper.explore_site. -/
structure ExplorationReport where
  all_tests : List ProbeResult
  working_endpoints : List ProbeResult
  summary : ExploreSummary
  deriving Repr, DecidableEq

/-- The loop body of explore_site (src/simple_scraper.py lines 89-101):
every probe result is appended to results, and those with success and
status code 200 are also appended to working_endpoints.  Structural
recursion produces the same two lists in the same order as the Python
append loop. -/
def exploreLoop (ctx : ProbeCtx) : List String → List ProbeResult × List ProbeResult
  | [] => ([], [])
  | url :: rest =>
      let result := test_url ctx url
      let acc := exploreLoop ctx rest
      if result.success && result.status_code == some 200 then
        (result :: acc.1, result :: acc.2)
      else
        (result :: acc.1, acc.2)

/-- Tail of explore_site after the catalog is built: run the loop over the
given candidate URLs and assemble the report (src/simple_scraper.py lines
86-111). -/
def explore_site_loop (ctx : ProbeCtx) (test_urls : List String) : ExplorationReport :=
  let acc := exploreLoop ctx test_urls
  { all_tests := acc.1
    working_endpoints := acc.2
    summary :=
      { total_tested := acc.1.length
        successful := acc.2.length
        failed := (acc.1.length : Int) - (acc.2.length : Int) } }

/-- The fixed catalog of candidate URLs built by explore_site from the base
domain (src/simple_scraper.py lines 63-84). -/
def test_urls_catalog (base_domain : String) : List String :=
  [ "https://" ++ base_domain
  , "http://" ++ base_domain
  , "https://" ++ base_domain ++ "/"
  , "https://" ++ base_domain ++ "/index.html"
  , "https://" ++ base_domain ++ "/index.php"
  , "https://" ++ base_domain ++ "/home"
  , "https://" ++ base_domain ++ "/main"
  , "https://" ++ base_domain ++ "/products"
  , "https://" ++ base_domain ++ "/items"
  , "https://" ++ base_domain ++ "/guide"
  , "https://" ++ base_domain ++ "/buyers-guide"
  , "https://" ++ base_domain ++ "/d2p"
  , "https://" ++ base_domain ++ "/api"
  , "https://" ++ base_domain ++ "/search"
  , "https://" ++ base_domain ++ "/category"
  , "https://" ++ base_domain ++ "/filter"
  , "https://" ++ base_domain ++ "/all"
  , "https://" ++ base_domain ++ "/page/1"
  , "https://" ++ base_domain ++ "/page1"
  , "https://" ++ base_domain ++ "/p/1" ]

/-- SimpleD2PScraper.explore_site (src/simple_scraper.py lines 58-111). -/
def explore_site (ctx : ProbeCtx) (base_domain : String) : ExplorationReport :=
  explore_site_loop ctx (test_urls_catalog base_domain)

/-- Python str.replace on character lists: scan left to right, replace each
non-overlapping occurrence of pat by rep and continue after it (intended
for a non-empty pattern, the only way the scripts use it). -/
def replaceFrom (pat rep : List Char) : List Char → List Char
  | [] => []
  | c :: cs =>
      if pat.isPrefixOf (c :: cs) then
        rep ++ replaceFrom pat rep (cs.drop (pat.length - 1))
      else
        c :: replaceFrom pat rep cs
termination_by l => l.length
decreasing_by
  · simp only [List.length_drop, List.length_cons]
    omega
  · simp only [List.length_cons]
    omega

/-- Python str.replace(pat, rep) lifted to strings. -/
def pyReplace (s pat rep : String) : String :=
  String.mk (replaceFrom pat.data rep.data s.data)

/-- Whether pat occurs as a contiguous sublist (for a non-empty pat). -/
def occursIn (pat : List Char) : List Char → Bool
  | [] => false
  | c :: cs => pat.isPrefixOf (c :: cs) || occursIn pat cs

/-- Character list of the pattern replaced by the scheme rewrite. -/
def httpChars : List Char := ['h', 't', 't', 'p', ':', '/', '/']

/-- Character list of the replacement of the scheme rewrite. -/
def httpsChars : List Char := ['h', 't', 't', 'p', 's', ':', '/', '/']

/-- Tail of httpChars, used in the idempotence proof. -/
def ttpChars : List Char := ['t', 't', 'p', ':', '/', '/']

/-- The scheme rewrite both retest loops perform before probing:
url.replace of the plain scheme by the secure one
(src/simple_scraper.py line 125, src/fixed_scraper.py line 120). -/
def https_url (url : String) : String :=
  pyReplace url "http://" "https://"

/-- Summary dictionary of scrape_original_urls; success_rate is the
formatted percentage string. -/
structure RetestSummary where
  total : Nat
  successful : Nat
  failed : Nat
  success_rate : String
  deriving Repr, DecidableEq

/-- Return value of SimpleD2PScraper.scrape_original_urls on the non-raising
path. -/
structure RetestReport where
  all_results : List ProbeResult
  successful : List ProbeResult
  failed : List ProbeResult
  summary : RetestSummary
  deriving Repr, DecidableEq

/-- Loop body of scrape_original_urls (src/simple_scraper.py lines 121-140):
probe the scheme-rewritten URL, tag the result with the original URL, then
append it to all results and to exactly one of successful/failed.  Returns
(results, successful, failed). -/
def retestLoop (ctx : ProbeCtx) :
    List String → List ProbeResult × List ProbeResult × List ProbeResult
  | [] => ([], [], [])
  | url :: rest =>
      let result := { test_url ctx (https_url url) with original_url := some url }
      let acc := retestLoop ctx rest
      if result.success && result.status_code == some 200 then
        (result :: acc.1, result :: acc.2.1, acc.2.2)
      else
        (result :: acc.1, acc.2.1, result :: acc.2.2)

/-- Exact value, in tenths of a percent, of the Python format expression
for the success rate: round-half-even of s/t*100 to one decimal, computed
on exact rationals.  CPython formats the nearest binary double with :.1f,
which agrees with exact half-even rounding except at decimal ties that are
not exactly representable in binary. -/
def ratePercentTenths (s t : Nat) : Nat :=
  let num := s * 1000
  let q := num / t
  let r := num % t
  if 2 * r < t then q
  else if t < 2 * r then q + 1
  else if q % 2 = 0 then q else q + 1

/-- The success-rate string of the summary: the Python expression
"{(len(successful)/len(results)*100):.1f}%" (see ratePercentTenths for the
float-formatting caveat). -/
def formatRate1 (s t : Nat) : String :=
  let tenths := ratePercentTenths s t
  toString (tenths / 10) ++ "." ++ toString (tenths % 10) ++ "%"

/-- The ZeroDivisionError message raised by CPython for int true division. -/
def zeroDivMsg : String := "ZeroDivisionError: division by zero"

/-- SimpleD2PScraper.scrape_original_urls (src/simple_scraper.py lines
113-152).  Python raises ZeroDivisionError while building the summary when
len(results) = 0 (the input list is empty); the Except.error branch models
that uncaught exception. -/
def scrape_original_urls (ctx : ProbeCtx) (urls : List String) :
    Except String RetestReport :=
  let acc := retestLoop ctx urls
  if acc.1.length = 0 then
    Except.error zeroDivMsg
  else
    Except.ok
      { all_results := acc.1
        successful := acc.2.1
        failed := acc.2.2
        summary :=
          { total := acc.1.length
            successful := acc.2.1.length
            failed := acc.2.2.length
            success_rate := formatRate1 acc.2.1.length acc.1.length } }

/-- Python dict increment d[k] = d.get(k, 0) + 1 on an insertion-ordered
association list (the representation of a Python dict). -/
def bump {κ : Type} [DecidableEq κ] (m : List (κ × Nat)) (k : κ) : List (κ × Nat) :=
  match m with
  | [] => [(k, 1)]
  | (k₀, v) :: rest => if k₀ = k then (k₀, v + 1) :: rest else (k₀, v) :: bump rest k

/-- Python dict.get(k, d) on an association list. -/
def lookupD {κ : Type} [DecidableEq κ] (m : List (κ × Nat)) (k : κ) (d : Nat) : Nat :=
  match m with
  | [] => d
  | (k₀, v) :: rest => if k₀ = k then v else lookupD rest k d

/-- Sum of the counter values of an association list (dict.values() total). -/
def sumVals {κ : Type} (m : List (κ × Nat)) : Nat :=
  (m.map Prod.snd).sum

/-- Return value of analyze_errors.  A status-code key is an integer or,
when the probe result has no status_code key, the Python string label
Unknown; the Option models that mixed key type with none as the label. -/
structure ErrorAnalysis where
  error_types : List (String × Nat)
  status_codes : List (Option Nat × Nat)
  total_failures : Nat
  deriving Repr, DecidableEq

/-- SimpleD2PScraper.analyze_errors (src/simple_scraper.py lines 154-170):
tally failed results by error string (default Unknown) and by status code
(default Unknown) independently. -/
def analyze_errors (failed_results : List ProbeResult) : ErrorAnalysis :=
  let acc := failed_results.foldl
    (fun (acc : List (String × Nat) × List (Option Nat × Nat)) result =>
      (bump acc.1 (result.error.getD "Unknown"), bump acc.2 result.status_code))
    ([], [])
  { error_types := acc.1
    status_codes := acc.2
    total_failures := failed_results.length }

/-- The message emitted when the Explorer found n working endpoints. -/
def foundMsg (n : Nat) : String :=
  "✅ Found " ++ toString n ++ " working endpoints"

/-- SimpleD2PScraper.generate_recommendations (src/simple_scraper.py lines
172-199): fixed if/then rules appending message strings in order. -/
def generate_recommendations (exploration_results : ExplorationReport)
    (scraping_results : RetestReport) : List String :=
  (if exploration_results.summary.successful = 0 then
    [ "❌ No working endpoints found - site may be down or completely restructured"
    , "🌐 Consider checking if the site has moved to a different domain"
    , "📧 Contact the site administrator for current URL structure" ]
  else
    [ foundMsg exploration_results.summary.successful
    , "🔧 Use the working endpoints instead of the pagination URLs" ]) ++
  (if scraping_results.summary.successful = 0 then
    [ "❌ All original pagination URLs failed"
    , "🔍 The pagination structure has likely changed"
    , "📋 Try using the working endpoints found during exploration" ]
  else []) ++
  (if scraping_results.summary.failed > 0 then
    (let error_analysis := analyze_errors scraping_results.failed
     (if lookupD error_analysis.status_codes (some 404) 0 > 0 then
       ["🔧 404 errors confirm URL structure has changed"]
     else []) ++
     (if lookupD error_analysis.status_codes (some 403) 0 > 0 then
       ["🚫 403 errors suggest access restrictions"]
     else []))
  else [])

/-- The hardcoded legacy pagination URLs of both main functions. -/
def original_urls : List String :=
  (List.range 25).map
    (fun n => "http://www.d2pbuyersguide.com/filter/all/page/" ++ toString (n + 1))

/-- Console lines printed by the save step of simple_scraper main
(src/simple_scraper.py lines 287-294): the write is wrapped in try/except,
a failure prints a warning and execution continues. -/
def simpleSaveLines (write : Except String Unit) : List String :=
  match write with
  | Except.ok _ => ["💾 Detailed results saved to: scraping_output/detailed_analysis.json"]
  | Except.error e =>
      [ "⚠️  Warning: Could not save results to file: " ++ e
      , "   Results are still displayed above." ]

/-- Tail of simple_scraper main from the write attempt on, modelled on the
console lines it emits: Except.error would model an uncaught exception
terminating the process, Except.ok the lines printed after the attempt.
The conclusion banner is printed on every path. -/
def simpleMainTail (write : Except String Unit) : Except String (List String) :=
  Except.ok (simpleSaveLines write ++
    [ "🎯 CONCLUSION: The pagination URLs are not working because the site"
    , "   structure has changed. Use the working endpoints found above"
    , "   or contact the site administrator for current URL structure." ])

/-- Tail of fixed_scraper main from the write attempt on
(src/fixed_scraper.py lines 264-271): the open/json.dump is not guarded, a
write failure propagates and terminates main before the final message. -/
def fixedMainTail (write : Except String Unit) : Except String (List String) :=
  match write with
  | Except.ok _ => Except.ok ["💾 Results saved to /workspace/scraping_results.json"]
  | Except.error e => Except.error e

/-- Outcome of one requests session.get in fixed_scraper: a response with
an arbitrary status code, or a requests RequestException with its string
description.  The except clause of each caller catches RequestException,
which covers the failures session.get raises. -/
inductive ReqOutcome where
  | response (code : Nat) (body : String)
  | exn (desc : String)
  deriving Repr, DecidableEq

/-- Network oracle for fixed_scraper. -/
def ReqCtx : Type := String → ReqOutcome

/-- An entry appended to successful_scrapes or failed_scrapes by
scrape_with_error_handling; the optional fields model dict keys present
only on some paths. -/
structure FixedEntry where
  url : String
  status_code : Option Nat
  content_length : Option Nat
  content_preview : Option String
  error : Option String
  deriving Repr, DecidableEq

/-- Loop body of scrape_with_error_handling (src/fixed_scraper.py lines
115-147): probe the scheme-rewritten URL; a 200 response goes to
successful_scrapes (keyed by the rewritten URL), another status goes to
failed_scrapes (also keyed by the rewritten URL) and a RequestException
goes to failed_scrapes keyed by the original URL.  Returns
(successful_scrapes, failed_scrapes). -/
def fixedScrapeLoop (ctx : ReqCtx) : List String → List FixedEntry × List FixedEntry
  | [] => ([], [])
  | url :: rest =>
      let hurl := https_url url
      let acc := fixedScrapeLoop ctx rest
      match ctx hurl with
      | ReqOutcome.response code body =>
          if code = 200 then
            ({ url := hurl
               status_code := some code
               content_length := some body.length
               content_preview := some (if body = "" then "Empty response" else body.take 500)
               error := none } :: acc.1, acc.2)
          else
            (acc.1,
             { url := hurl
               status_code := some code
               content_length := none
               content_preview := none
               error := some ("HTTP " ++ toString code) } :: acc.2)
      | ReqOutcome.exn e =>
          (acc.1,
           { url := url
             status_code := none
             content_length := none
             content_preview := none
             error := some e } :: acc.2)

/-- D2PBuyersGuideScraper._analyze_errors (src/fixed_scraper.py lines
155-171), identical tallying to simple_scraper over the failed entries. -/
def fixedAnalyzeErrors (failed_scrapes : List FixedEntry) : ErrorAnalysis :=
  let acc := failed_scrapes.foldl
    (fun (acc : List (String × Nat) × List (Option Nat × Nat)) failure =>
      (bump acc.1 (failure.error.getD "Unknown"), bump acc.2 failure.status_code))
    ([], [])
  { error_types := acc.1
    status_codes := acc.2
    total_failures := failed_scrapes.length }

/-- D2PBuyersGuideScraper._generate_recommendations (src/fixed_scraper.py
lines 173-190), reading the successful_scrapes list and the already
computed error summary of the results dictionary. -/
def fixedGenerateRecommendations (successful_scrapes : List FixedEntry)
    (error_summary : ErrorAnalysis) : List String :=
  (if successful_scrapes.isEmpty then
    [ "❌ No successful scrapes - the site may be down or URLs are incorrect"
    , "🔍 Try investigating the site structure manually"
    , "🌐 Check if the site has moved to a different domain" ]
  else []) ++
  (if lookupD error_summary.status_codes (some 404) 0 > 0 then
    [ "🔧 404 errors suggest URL structure has changed"
    , "📋 Consider using a sitemap or site exploration tool" ]
  else []) ++
  (if lookupD error_summary.status_codes (some 403) 0 > 0 then
    [ "🚫 403 errors suggest access restrictions"
    , "🔑 Check if authentication is required" ]
  else [])

/-- Results dictionary of scrape_with_error_handling. -/
structure FixedScrapeResults where
  successful_scrapes : List FixedEntry
  failed_scrapes : List FixedEntry
  error_summary : ErrorAnalysis
  recommendations : List String
  deriving Repr, DecidableEq

/-- D2PBuyersGuideScraper.scrape_with_error_handling (src/fixed_scraper.py
lines 106-153). -/
def scrape_with_error_handling (ctx : ReqCtx) (urls : List String) : FixedScrapeResults :=
  let acc := fixedScrapeLoop ctx urls
  let error_summary := fixedAnalyzeErrors acc.2
  { successful_scrapes := acc.1
    failed_scrapes := acc.2
    error_summary := error_summary
    recommendations := fixedGenerateRecommendations acc.1 error_summary }

/-- The candidate endpoint suffixes of find_working_endpoints
(src/fixed_scraper.py lines 59-83). -/
def endpoints_to_test : List String :=
  [ "/", "/index.html", "/index.php", "/home", "/main", "/products", "/items"
  , "/guide", "/buyers-guide", "/d2p", "/api", "/api/products", "/api/items"
  , "/search", "/category", "/categories", "/filter", "/list", "/all"
  , "/page/1", "/page1", "/p/1", "/1" ]

/-- urljoin(base, path) specialised to the way find_working_endpoints calls
it: base is scheme://host with no path and every candidate is an absolute
path, so the join is string concatenation. -/
def urljoinAbs (base path : String) : String :=
  base ++ path

/-- A working-endpoint entry collected by find_working_endpoints. -/
structure Endpoint where
  url : String
  status_code : Nat
  content_length : Nat
  content_preview : String
  deriving Repr, DecidableEq

/-- Loop of find_working_endpoints (src/fixed_scraper.py lines 87-102):
probe each candidate, append an entry when the response status is 200,
skip other statuses and exceptions. -/
def findWorkLoop (ctx : ReqCtx) (base_url : String) : List String → List Endpoint
  | [] => []
  | endpoint :: rest =>
      let turl := urljoinAbs base_url endpoint
      match ctx turl with
      | ReqOutcome.response code body =>
          if code = 200 then
            { url := turl
              status_code := code
              content_length := body.length
              content_preview := if body = "" then "Empty response" else body.take 300 }
              :: findWorkLoop ctx base_url rest
          else
            findWorkLoop ctx base_url rest
      | ReqOutcome.exn _ => findWorkLoop ctx base_url rest

/-- D2PBuyersGuideScraper.find_working_endpoints (src/fixed_scraper.py
lines 54-104). -/
def find_working_endpoints (ctx : ReqCtx) (base_domain : String) : List Endpoint :=
  findWorkLoop ctx ("https://" ++ base_domain) endpoints_to_test

/-- urlparse(url).netloc specialised to the scheme://host URLs
test_url_variations receives. -/
def netlocOf (url : String) : String :=
  if url.startsWith "https://" then url.drop 8
  else if url.startsWith "http://" then url.drop 7
  else url

/-- A value of the results dictionary of test_url_variations. -/
structure UrlTestResult where
  status_code : Option Nat
  content_length : Option Nat
  content_preview : Option String
  error : Option String
  deriving Repr, DecidableEq

/-- D2PBuyersGuideScraper.test_url_variations (src/fixed_scraper.py lines
30-52): probe the bare domain under both schemes, recording either the
response data or the exception string per URL. -/
def test_url_variations (ctx : ReqCtx) (base_url : String) : List (String × UrlTestResult) :=
  let base_domain := netlocOf base_url
  ["https", "http"].map (fun protocol =>
    let turl := protocol ++ "://" ++ base_domain
    match ctx turl with
    | ReqOutcome.response code body =>
        (turl,
         { status_code := some code
           content_length := some body.length
           content_preview := some (if body = "" then "Empty response" else body.take 200)
           error := none })
    | ReqOutcome.exn e =>
        (turl, { status_code := none, content_length := none, content_preview := none
                 error := some e }))

/-- The exploration_summary dictionary of explore_site_structure. -/
structure FixedExploreSummary where
  total_endpoints_tested : Nat
  working_endpoints_found : Nat
  deriving Repr, DecidableEq

/-- Return value of explore_site_structure. -/
structure SiteStructureReport where
  base_url_tests : List (String × UrlTestResult)
  working_endpoints : List Endpoint
  exploration_summary : FixedExploreSummary
  deriving Repr, DecidableEq

/-- D2PBuyersGuideScraper.explore_site_structure (src/fixed_scraper.py
lines 192-209).  Note that total_endpoints_tested is computed from the
working_endpoints list, not from the number of candidates probed. -/
def explore_site_structure (ctx : ReqCtx) (base_domain : String) : SiteStructureReport :=
  let url_tests := test_url_variations ctx ("https://" ++ base_domain)
  let working_endpoints := find_working_endpoints ctx base_domain
  { base_url_tests := url_tests
    working_endpoints := working_endpoints
    exploration_summary :=
      { total_endpoints_tested := working_endpoints.length
        working_endpoints_found :=
          (working_endpoints.filter (fun ep => ep.status_code == 200)).length } }

/-- A transport on which every request yields an HTTP 404 response. -/
def all404 : ReqCtx := fun _ => ReqOutcome.response 404 "Not Found"

/-- The filter the Explorer applies to collect working endpoints. -/
def working200 (r : ProbeResult) : Bool :=
  r.success && r.status_code == some 200

/-- Exploration report with zero successes, used to instantiate theorems. -/
def er0 : ExplorationReport :=
  explore_site_loop (fun _ => ProbeOutcome.netError "down") []

/-- Exploration report with one success, used to instantiate theorems. -/
def er1 : ExplorationReport :=
  explore_site_loop (fun _ => ProbeOutcome.httpResponse 200 "ok" []) ["https://example.test"]

/-- Retest report sample used to instantiate theorems. -/
def sr0 : RetestReport :=
  { all_results := []
    successful := []
    failed := []
    summary := { total := 0, successful := 0, failed := 0, success_rate := "0.0%" } }

/-! Helper lemmas. -/

/-- A list in which the pattern does not occur is left unchanged. -/
theorem replaceFrom_of_not_occurs (pat rep : List Char) (l : List Char)
    (h : occursIn pat l = false) : replaceFrom pat rep l = l := by
  induction l with
  | nil => simp [replaceFrom]
  | cons c cs ih =>
      rw [occursIn] at h
      simp only [Bool.or_eq_false_iff] at h
      rw [replaceFrom, if_neg (by simp [h.1]), ih h.2]

/-- A pattern avoiding the character h of the scheme that prefixes the
output of the scheme rewrite must already prefix the input. -/
theorem reflect_of_no_h (cs : List Char) :
    ∀ q : List Char, (∀ a ∈ q, a ≠ 'h') →
      q.isPrefixOf (replaceFrom httpChars httpsChars cs) = true →
      q.isPrefixOf cs = true := by
  induction cs with
  | nil =>
      intro q hq h
      rw [replaceFrom] at h
      cases q with
      | nil => simp
      | cons e q2 => simp at h
  | cons c cs ih =>
      intro q hq h
      rw [replaceFrom] at h
      by_cases hp : httpChars.isPrefixOf (c :: cs) = true
      · rw [if_pos hp] at h
        cases q with
        | nil => simp
        | cons e q2 =>
            exfalso
            have he : e ≠ 'h' := hq e (List.mem_cons_self e q2)
            rw [show httpsChars ++ replaceFrom httpChars httpsChars
                  (cs.drop (httpChars.length - 1))
                  = 'h' :: (['t', 't', 'p', 's', ':', '/', '/'] ++
                      replaceFrom httpChars httpsChars (cs.drop (httpChars.length - 1)))
                  from rfl,
                List.isPrefixOf_cons₂] at h
            have hbe : (e == 'h') = true := by
              cases hbe : e == 'h' with
              | true => rfl
              | false => rw [hbe] at h; simp at h
            exact he (by simpa using hbe)
      · rw [if_neg hp] at h
        cases q with
        | nil => simp
        | cons e q2 =>
            rw [List.isPrefixOf_cons₂] at h ⊢
            have h1 : (e == c) = true := by
              cases hbe : e == c with
              | true => rfl
              | false => rw [hbe] at h; simp at h
            rw [h1] at h ⊢
            simp only [Bool.true_and] at h ⊢
            exact ih q2 (fun a ha => hq a (List.mem_cons_of_mem e ha)) h

/-- The output of the scheme rewrite never contains the pattern again. -/
theorem not_occurs_replaceFrom : ∀ cs : List Char,
    occursIn httpChars (replaceFrom httpChars httpsChars cs) = false
  | [] => by rw [replaceFrom]; rfl
  | c :: cs => by
      rw [replaceFrom]
      by_cases hp : httpChars.isPrefixOf (c :: cs) = true
      · rw [if_pos hp]
        have ih := not_occurs_replaceFrom (cs.drop (httpChars.length - 1))
        simpa [occursIn, List.isPrefixOf, httpChars, httpsChars] using ih
      · rw [if_neg hp]
        have ih := not_occurs_replaceFrom cs
        rw [occursIn, ih, Bool.or_false]
        rw [show ∀ X, httpChars.isPrefixOf (c :: X) = ('h' == c && ttpChars.isPrefixOf X)
          from fun X => rfl]
        cases hbe : 'h' == c with
        | false => rfl
        | true =>
            rw [Bool.true_and]
            cases htp : ttpChars.isPrefixOf (replaceFrom httpChars httpsChars cs) with
            | false => rfl
            | true =>
                exfalso
                apply hp
                have hrefl := reflect_of_no_h cs ttpChars (by decide) htp
                rw [show httpChars.isPrefixOf (c :: cs) = ('h' == c && ttpChars.isPrefixOf cs)
                  from rfl, hbe, Bool.true_and]
                exact hrefl
termination_by cs => cs.length
decreasing_by
  · simp only [List.length_drop, List.length_cons]
    omega
  · simp only [List.length_cons]
    omega

/-- The scheme rewrite is idempotent on character lists. -/
theorem replaceFrom_idem (l : List Char) :
    replaceFrom httpChars httpsChars (replaceFrom httpChars httpsChars l) =
      replaceFrom httpChars httpsChars l :=
  replaceFrom_of_not_occurs _ _ _ (not_occurs_replaceFrom l)

/-- One rewrite step at the head of a list starting with the pattern. -/
theorem replaceFrom_http_step (l : List Char) :
    replaceFrom httpChars httpsChars (httpChars ++ l) =
      httpsChars ++ replaceFrom httpChars httpsChars l := by
  rw [show httpChars ++ l = 'h' :: (ttpChars ++ l) from rfl, replaceFrom]
  rw [if_pos (by simp [httpChars, ttpChars, List.isPrefixOf])]
  rw [show httpChars.length - 1 = ttpChars.length from rfl, List.drop_left]

/-- All probe results of the Explorer loop, in order. -/
theorem exploreLoop_fst (ctx : ProbeCtx) (urls : List String) :
    (exploreLoop ctx urls).1 = urls.map (test_url ctx) := by
  induction urls with
  | nil => rfl
  | cons url rest ih =>
      simp only [exploreLoop, List.map_cons]
      split <;> simp [ih]

/-- The working endpoints of the Explorer loop are the filter of all its
results by the 200-success test. -/
theorem exploreLoop_snd (ctx : ProbeCtx) (urls : List String) :
    (exploreLoop ctx urls).2 = (exploreLoop ctx urls).1.filter working200 := by
  induction urls with
  | nil => rfl
  | cons url rest ih =>
      simp only [exploreLoop]
      by_cases h : ((test_url ctx url).success && ((test_url ctx url).status_code == some 200))
        = true
      · rw [if_pos h]
        simp only [List.filter_cons]
        rw [if_pos (by simpa [working200] using h)]
        simpa using ih
      · rw [if_neg h]
        simp only [List.filter_cons]
        rw [if_neg (by simpa [working200] using h)]
        simpa using ih

/-- All results of the Retester loop, in order. -/
theorem retestLoop_fst (ctx : ProbeCtx) (urls : List String) :
    (retestLoop ctx urls).1 =
      urls.map (fun url => { test_url ctx (https_url url) with original_url := some url }) := by
  induction urls with
  | nil => rfl
  | cons url rest ih =>
      simp only [retestLoop, List.map_cons]
      split <;> simp [ih]

/-- The Retester loop produces one result per input URL. -/
theorem retestLoop_fst_length (ctx : ProbeCtx) (urls : List String) :
    (retestLoop ctx urls).1.length = urls.length := by
  rw [retestLoop_fst]
  simp

/-- Incrementing a counter raises the total of the values by one. -/
theorem sumVals_bump {κ : Type} [DecidableEq κ] (m : List (κ × Nat)) (k : κ) :
    sumVals (bump m k) = sumVals m + 1 := by
  induction m with
  | nil => simp [bump, sumVals]
  | cons p rest ih =>
      obtain ⟨k₀, v⟩ := p
      rw [bump]
      by_cases h : k₀ = k
      · rw [if_pos h]
        simp [sumVals]
        omega
      · rw [if_neg h]
        simp [sumVals] at ih ⊢
        omega

/-- Folding the double-counter step over a list adds the length of the
list to each of the two totals. -/
theorem foldl_bump_sums {α κ₁ κ₂ : Type} [DecidableEq κ₁] [DecidableEq κ₂]
    (f : α → κ₁) (g : α → κ₂) (l : List α) :
    ∀ (a : List (κ₁ × Nat)) (b : List (κ₂ × Nat)),
      sumVals ((l.foldl (fun acc x => (bump acc.1 (f x), bump acc.2 (g x))) (a, b)).1)
          = sumVals a + l.length ∧
      sumVals ((l.foldl (fun acc x => (bump acc.1 (f x), bump acc.2 (g x))) (a, b)).2)
          = sumVals b + l.length := by
  induction l with
  | nil => intro a b; simp
  | cons x rest ih =>
      intro a b
      simp only [List.foldl_cons]
      have h := ih (bump a (f x)) (bump b (g x))
      simp only [List.length_cons]
      rw [h.1, h.2, sumVals_bump, sumVals_bump]
      omega

/-- The string of n working endpoints found begins with the check mark. -/
theorem foundMsg_head (n : Nat) : (foundMsg n).data.head? = some '✅' := by
  rw [foundMsg]
  generalize toString n = x
  obtain ⟨l⟩ := x
  rfl

/-- Strings whose first characters differ are different. -/
theorem ne_of_head_ne (s t : String) (h : s.data.head? ≠ t.data.head?) : s ≠ t :=
  fun e => h (by rw [e])

/-- The url field of a probe result is the probed URL on every path. -/
theorem test_url_url (ctx : ProbeCtx) (u : String) : (test_url ctx u).url = u := by
  cases hctx : ctx u <;> simp [test_url, hctx]

/-- The tenths value chosen by ratePercentTenths is within half a tenth of
the exact percentage s/t*100. -/
theorem ratePercentTenths_close (s t : Nat) (ht : 0 < t) :
    |((s : ℚ) / t * 100) - (ratePercentTenths s t : ℚ) / 10| ≤ 1 / 20 := by
  have htq : (0 : ℚ) < t := by exact_mod_cast ht
  have hmod := Nat.div_add_mod (s * 1000) t
  have hlt := Nat.mod_lt (s * 1000) ht
  set q := s * 1000 / t with hqdef
  set r := s * 1000 % t with hrdef
  have hnq : (t : ℚ) * q + r = (s : ℚ) * 1000 := by exact_mod_cast hmod
  have hrq : (r : ℚ) < t := by exact_mod_cast hlt
  have hr0 : (0 : ℚ) ≤ r := by positivity
  have key : ∀ X : ℚ, (s : ℚ) / t * 100 - X / 10 = ((s : ℚ) * 1000 - t * X) / (10 * t) := by
    intro X
    field_simp
    ring
  have habs : ∀ X : ℚ, |(s : ℚ) * 1000 - t * X| ≤ t / 2 →
      |((s : ℚ) / t * 100) - X / 10| ≤ 1 / 20 := by
    intro X hX
    rw [key X, abs_div, abs_of_pos (by positivity : (0 : ℚ) < 10 * t),
      div_le_iff₀ (by positivity : (0 : ℚ) < 10 * t)]
    nlinarith [hX]
  rw [ratePercentTenths]
  split_ifs with h1 h2 h3
  · apply habs
    have h1q : 2 * (r : ℚ) < t := by exact_mod_cast h1
    rw [abs_le]
    constructor <;> nlinarith
  · apply habs
    push_cast
    have h2q : (t : ℚ) < 2 * r := by exact_mod_cast h2
    rw [abs_le]
    constructor <;> nlinarith
  · apply habs
    have htieq : 2 * (r : ℚ) = t := by
      have h2rt : 2 * r = t := by omega
      exact_mod_cast h2rt
    rw [abs_le]
    constructor <;> nlinarith
  · apply habs
    push_cast
    have htieq : 2 * (r : ℚ) = t := by
      have h2rt : 2 * r = t := by omega
      exact_mod_cast h2rt
    rw [abs_le]
    constructor <;> nlinarith

/-! Claim theorems. -/

/-- C1: in simple_scraper the ExplorationReport summary counts always equal
the lengths of workingEndpoints and allTests, for every candidate list
including the empty one, and one result is produced per candidate.  In
fixed_scraper the claim fails: on a transport answering 404 to every
request, explore_site_structure probes all 23 candidate endpoints yet
reports total_endpoints_tested = 0, because the code computes that field
from the working_endpoints list instead of the tested results. -/
theorem C1_summary_counts :
    (∀ (ctx : ProbeCtx) (urls : List String),
        (explore_site_loop ctx urls).summary.successful
            = (explore_site_loop ctx urls).working_endpoints.length ∧
        (explore_site_loop ctx urls).summary.total_tested
            = (explore_site_loop ctx urls).all_tests.length ∧
        (explore_site_loop ctx urls).all_tests.length = urls.length) ∧
    (explore_site_structure all404 "www.d2pbuyersguide.com").exploration_summary.total_endpoints_tested
        = 0 ∧
    endpoints_to_test.length = 23 := by
  refine ⟨fun ctx urls => ⟨rfl, rfl, ?_⟩, ?_, rfl⟩
  · rw [show (explore_site_loop ctx urls).all_tests = (exploreLoop ctx urls).1 from rfl,
      exploreLoop_fst]
    simp
  · rfl

/-- C3: the working endpoints are exactly the 200-success filter of all
tested results, in discovery order: in simple_scraper the
working_endpoints list of the ExplorationReport is the filter of all_tests
by success and status code 200; in fixed_scraper find_working_endpoints is
the filterMap of the probes of the candidate catalog keeping exactly the
entries whose response status is 200. -/
theorem C3_working_endpoints_exact :
    (∀ (ctx : ProbeCtx) (urls : List String),
        (explore_site_loop ctx urls).working_endpoints
            = (explore_site_loop ctx urls).all_tests.filter working200) ∧
    (∀ (ctx : ReqCtx) (base_domain : String),
        find_working_endpoints ctx base_domain
            = (endpoints_to_test.map (urljoinAbs ("https://" ++ base_domain))).filterMap
                (fun u =>
                  match ctx u with
                  | ReqOutcome.response code body =>
                      if code = 200 then
                        some { url := u
                               status_code := code
                               content_length := body.length
                               content_preview :=
                                 if body = "" then "Empty response" else body.take 300 }
                      else none
                  | ReqOutcome.exn _ => none)) := by
  constructor
  · intro ctx urls
    exact exploreLoop_snd ctx urls
  · intro ctx base_domain
    rw [find_working_endpoints]
    generalize "https://" ++ base_domain = base_url
    induction endpoints_to_test with
    | nil => rfl
    | cons e rest ih =>
        simp only [findWorkLoop, List.map_cons, List.filterMap_cons]
        cases hctx : ctx (urljoinAbs base_url e) with
        | response code body =>
            by_cases h200 : code = 200
            · subst h200
              simp [ih]
            · simp [ih, h200]
        | exn e2 => exact ih

/-- C5: for every list of failed results, in both scripts, the per-error
counts and the per-status-code counts of the error analysis each sum to
total_failures, and total_failures is the length of the input list (an
absent error key is tallied under the label Unknown, an absent status code
under the Unknown status key modelled by none). -/
theorem C5_error_analysis_sums :
    ∀ (l : List ProbeResult) (lf : List FixedEntry),
      sumVals (analyze_errors l).error_types = (analyze_errors l).total_failures ∧
      sumVals (analyze_errors l).status_codes = (analyze_errors l).total_failures ∧
      (analyze_errors l).total_failures = l.length ∧
      sumVals (fixedAnalyzeErrors lf).error_types = (fixedAnalyzeErrors lf).total_failures ∧
      sumVals (fixedAnalyzeErrors lf).status_codes = (fixedAnalyzeErrors lf).total_failures ∧
      (fixedAnalyzeErrors lf).total_failures = lf.length := by
  intro l lf
  have h1 := foldl_bump_sums (fun r : ProbeResult => r.error.getD "Unknown")
    (fun r : ProbeResult => r.status_code) l [] []
  have h2 := foldl_bump_sums (fun r : FixedEntry => r.error.getD "Unknown")
    (fun r : FixedEntry => r.status_code) lf [] []
  simp only [sumVals, List.map_nil, List.sum_nil, Nat.zero_add] at h1 h2
  exact ⟨h1.1, h1.2, rfl, h2.1, h2.2, rfl⟩

/-- C2 counterexample: on the empty input list the Retester does not
produce a guarded 0.0 percent fallback; the success-rate expression
divides len(successful) by len(results) = 0 and scrape_original_urls
raises ZeroDivisionError (the Except.error value of the model), so no
report with a defined successRatePercent exists for total = 0. -/
theorem C2_empty_input_raises :
    scrape_original_urls (fun _ => ProbeOutcome.netError "unreachable") []
      = Except.error zeroDivMsg := rfl

/-- C2 (amended): when the input list is non-empty the Retester returns a
report whose successRatePercent is the formatted value of
successful/total*100 rounded to one decimal (the rounding being correct to
within half a tenth of the exact rational percentage), with the summary
counts tied to the partition lengths; when the input list is empty, so
total would be 0, the code raises ZeroDivisionError instead of producing a
fallback. -/
theorem C2_success_rate_formula (ctx : ProbeCtx) (urls : List String) :
    (urls = [] → scrape_original_urls ctx urls = Except.error zeroDivMsg) ∧
    (urls ≠ [] → ∃ rep, scrape_original_urls ctx urls = Except.ok rep ∧
        rep.summary.success_rate = formatRate1 rep.summary.successful rep.summary.total ∧
        rep.summary.successful = rep.successful.length ∧
        rep.summary.total = rep.all_results.length ∧
        0 < rep.summary.total) ∧
    (∀ a b : Nat, 0 < b →
        |((a : ℚ) / b * 100) - (ratePercentTenths a b : ℚ) / 10| ≤ 1 / 20) := by
  refine ⟨?_, ?_, fun a b hb => ratePercentTenths_close a b hb⟩
  · intro h
    subst h
    rfl
  · intro h
    have hlen : (retestLoop ctx urls).1.length = urls.length := retestLoop_fst_length ctx urls
    have hne : ¬(retestLoop ctx urls).1.length = 0 := by
      rw [hlen]
      simpa using h
    rw [scrape_original_urls, if_neg hne]
    exact ⟨_, rfl, rfl, rfl, rfl, Nat.pos_of_ne_zero hne⟩

/-- C2 witness: concrete instances of the success-rate theorem at a
one-element input, the rounding bound at 1/2, and the empty input. -/
theorem C2_success_rate_formula_witness :
    (∃ rep,
        scrape_original_urls (fun _ => ProbeOutcome.netError "connection refused")
            ["http://example.test"] = Except.ok rep ∧
        rep.summary.success_rate = formatRate1 rep.summary.successful rep.summary.total ∧
        rep.summary.successful = rep.successful.length ∧
        rep.summary.total = rep.all_results.length ∧
        0 < rep.summary.total) ∧
    |((1 : ℚ) / 2 * 100) - (ratePercentTenths 1 2 : ℚ) / 10| ≤ 1 / 20 ∧
    scrape_original_urls (fun _ => ProbeOutcome.netError "connection refused") []
        = Except.error zeroDivMsg :=
  ⟨(C2_success_rate_formula (fun _ => ProbeOutcome.netError "connection refused")
      ["http://example.test"]).2.1 (by simp),
   (C2_success_rate_formula (fun _ => ProbeOutcome.netError "connection refused")
      []).2.2 1 2 (by norm_num),
   (C2_success_rate_formula (fun _ => ProbeOutcome.netError "connection refused") []).1 rfl⟩

/-- C4: for a report with zero Explorer successes the recommendations
contain the no-working-endpoints message and never any found-N-endpoints
message; with nonzero successes they contain the found-N message for the
actual count and the use-the-working-endpoints message. -/
theorem C4_recommendation_rules (er : ExplorationReport) (sr : RetestReport) :
    (er.summary.successful = 0 →
        "❌ No working endpoints found - site may be down or completely restructured"
            ∈ generate_recommendations er sr ∧
        ∀ n : Nat, foundMsg n ∉ generate_recommendations er sr) ∧
    (er.summary.successful ≠ 0 →
        foundMsg er.summary.successful ∈ generate_recommendations er sr ∧
        "🔧 Use the working endpoints instead of the pagination URLs"
            ∈ generate_recommendations er sr) := by
  constructor
  · intro h0
    have hhead : ∀ s ∈ generate_recommendations er sr, s.data.head? ≠ some '✅' := by
      intro s hs
      rw [generate_recommendations, if_pos h0] at hs
      rcases List.mem_append.mp hs with hs1 | hs2
      · rcases List.mem_append.mp hs1 with hsa | hsb
        · simp only [List.mem_cons, List.not_mem_nil, or_false] at hsa
          rcases hsa with rfl | rfl | rfl <;> decide
        · by_cases hB : sr.summary.successful = 0
          · rw [if_pos hB] at hsb
            simp only [List.mem_cons, List.not_mem_nil, or_false] at hsb
            rcases hsb with rfl | rfl | rfl <;> decide
          · rw [if_neg hB] at hsb
            simp at hsb
      · by_cases hC : sr.summary.failed > 0
        · rw [if_pos hC] at hs2
          rcases List.mem_append.mp hs2 with hsc | hsd
          · by_cases h404 : lookupD (analyze_errors sr.failed).status_codes (some 404) 0 > 0
            · rw [if_pos h404] at hsc
              simp only [List.mem_cons, List.not_mem_nil, or_false] at hsc
              subst hsc
              decide
            · rw [if_neg h404] at hsc
              simp at hsc
          · by_cases h403 : lookupD (analyze_errors sr.failed).status_codes (some 403) 0 > 0
            · rw [if_pos h403] at hsd
              simp only [List.mem_cons, List.not_mem_nil, or_false] at hsd
              subst hsd
              decide
            · rw [if_neg h403] at hsd
              simp at hsd
        · rw [if_neg hC] at hs2
          simp at hs2
    constructor
    · rw [generate_recommendations, if_pos h0]
      simp
    · intro n hmem
      exact hhead (foundMsg n) hmem (foundMsg_head n)
  · intro h0
    rw [generate_recommendations, if_neg h0]
    simp

/-- C4 witness: the rules instantiated at a zero-success report and at a
one-success report. -/
theorem C4_recommendation_rules_witness :
    ("❌ No working endpoints found - site may be down or completely restructured"
        ∈ generate_recommendations er0 sr0 ∧
      ∀ n : Nat, foundMsg n ∉ generate_recommendations er0 sr0) ∧
    (foundMsg er1.summary.successful ∈ generate_recommendations er1 sr0 ∧
      "🔧 Use the working endpoints instead of the pagination URLs"
        ∈ generate_recommendations er1 sr0) :=
  ⟨(C4_recommendation_rules er0 sr0).1 rfl,
   (C4_recommendation_rules er1 sr0).2 (by decide)⟩

/-- C6: every probe error is converted into a result rather than
propagated: an HTTPError with code c yields success false with status c
and the formatted HTTP error string, any other exception yields success
false with no status code, the exception description as error and the
No-content placeholder; and the fixed_scraper loop files every input URL
into exactly one of the successful and failed buckets, so no failed probe
aborts the run. -/
theorem C6_prober_error_containment :
    (∀ (ctx : ProbeCtx) (url : String) (code : Nat) (reason body : String),
        ctx url = ProbeOutcome.httpError code reason body →
          test_url ctx url =
            { url := url, status_code := some code, success := false,
              content_length := none, content_preview := body.take 200,
              error := some ("HTTP " ++ toString code ++ ": " ++ reason),
              headers := none }) ∧
    (∀ (ctx : ProbeCtx) (url desc : String),
        ctx url = ProbeOutcome.netError desc →
          test_url ctx url =
            { url := url, status_code := none, success := false,
              content_length := none, content_preview := "No content",
              error := some desc, headers := none }) ∧
    (∀ (ctx : ReqCtx) (urls : List String),
        (fixedScrapeLoop ctx urls).1.length + (fixedScrapeLoop ctx urls).2.length
            = urls.length) := by
  refine ⟨?_, ?_, ?_⟩
  · intro ctx url code reason body h
    simp [test_url, h]
  · intro ctx url desc h
    simp [test_url, h]
  · intro ctx urls
    induction urls with
    | nil => rfl
    | cons url rest ih =>
        simp only [fixedScrapeLoop]
        cases hctx : ctx (https_url url) with
        | response code body =>
            by_cases h200 : code = 200
            · subst h200
              simp only [if_pos rfl, if_true, eq_self_iff_true, List.length_cons]
              omega
            · simp only [if_neg h200, List.length_cons]
              omega
        | exn e =>
            simp only [List.length_cons]
            omega

/-- C6 witness: the conversion evaluated at a 404 HTTPError and at a
timeout exception. -/
theorem C6_prober_error_containment_witness :
    test_url (fun _ => ProbeOutcome.httpError 404 "Not Found" "gone") "https://example.test"
        = { url := "https://example.test", status_code := some 404, success := false,
            content_length := none, content_preview := ("gone" : String).take 200,
            error := some ("HTTP " ++ toString 404 ++ ": " ++ "Not Found"),
            headers := none } ∧
    test_url (fun _ => ProbeOutcome.netError "timed out") "https://example.test"
        = { url := "https://example.test", status_code := none, success := false,
            content_length := none, content_preview := "No content",
            error := some "timed out", headers := none } :=
  ⟨C6_prober_error_containment.1 _ _ 404 "Not Found" "gone" rfl,
   C6_prober_error_containment.2.1 _ _ "timed out" rfl⟩

/-- C7: every element of allResults carries the corresponding input URL,
unchanged, in its original_url tag. -/
theorem C7_original_url_tagging (ctx : ProbeCtx) (urls : List String) (rep : RetestReport)
    (h : scrape_original_urls ctx urls = Except.ok rep) :
    rep.all_results.map (fun r => r.original_url) = urls.map some := by
  rw [scrape_original_urls] at h
  by_cases hz : (retestLoop ctx urls).1.length = 0
  · rw [if_pos hz] at h
    exact absurd h (by simp)
  · rw [if_neg hz] at h
    injection h with h2
    subst h2
    simp only [retestLoop_fst, List.map_map]
    rfl

/-- C7 witness: the tagging evaluated on a one-element input list. -/
theorem C7_original_url_tagging_witness :
    ∃ rep,
      scrape_original_urls (fun _ => ProbeOutcome.netError "refused") ["http://a"]
          = Except.ok rep ∧
      rep.all_results.map (fun r => r.original_url) = [some "http://a"] :=
  ⟨_, rfl, C7_original_url_tagging (fun _ => ProbeOutcome.netError "refused") ["http://a"] _ rfl⟩

/-- C8: the Retester probes exactly the scheme-rewritten input URLs; a URL
of the plain scheme followed by a remainder in which the pattern does not
reoccur is rewritten to the secure scheme with the remainder unchanged; a
URL without any occurrence of the plain scheme pattern (in particular one
already on the secure scheme) is unchanged; and the rewrite is idempotent
on every string. -/
theorem C8_https_rewrite :
    (∀ (ctx : ProbeCtx) (urls : List String),
        (retestLoop ctx urls).1.map (fun r => r.url) = urls.map https_url) ∧
    (∀ rest : String, occursIn httpChars rest.data = false →
        https_url ("http://" ++ rest) = "https://" ++ rest) ∧
    (∀ s : String, occursIn httpChars s.data = false → https_url s = s) ∧
    (∀ s : String, https_url (https_url s) = https_url s) := by
  refine ⟨?_, ?_, ?_, ?_⟩
  · intro ctx urls
    rw [retestLoop_fst, List.map_map]
    apply List.map_congr_left
    intro u hu
    simp only [Function.comp_apply]
    exact test_url_url ctx (https_url u)
  · intro rest h
    obtain ⟨l⟩ := rest
    show String.mk (replaceFrom httpChars httpsChars (httpChars ++ l))
        = String.mk (httpsChars ++ l)
    rw [replaceFrom_http_step, replaceFrom_of_not_occurs _ _ _ h]
  · intro s h
    obtain ⟨l⟩ := s
    exact congrArg String.mk (replaceFrom_of_not_occurs _ _ _ h)
  · intro s
    obtain ⟨l⟩ := s
    exact congrArg String.mk (replaceFrom_idem l)

/-- C8 witness: the rewrite evaluated on the first legacy pagination URL
and the unchanged and idempotence clauses at concrete URLs. -/
theorem C8_https_rewrite_witness :
    https_url ("http://" ++ "www.d2pbuyersguide.com/filter/all/page/1")
        = "https://" ++ "www.d2pbuyersguide.com/filter/all/page/1" ∧
    https_url "https://www.d2pbuyersguide.com/filter/all/page/1"
        = "https://www.d2pbuyersguide.com/filter/all/page/1" ∧
    https_url (https_url "http://www.d2pbuyersguide.com/filter/all/page/1")
        = https_url "http://www.d2pbuyersguide.com/filter/all/page/1" :=
  ⟨C8_https_rewrite.2.1 _ (by decide),
   C8_https_rewrite.2.2.1 _ (by decide),
   C8_https_rewrite.2.2.2 _⟩

/-- C9 counterexample: in fixed_scraper main the report write is not
guarded, so a failing write propagates its exception and the process
terminates instead of continuing with a warning. -/
theorem C9_fixed_write_failure_terminates :
    fixedMainTail (Except.error "No such file or directory")
        = Except.error "No such file or directory" := rfl

/-- C9 (amended): in simple_scraper main a failing report write is caught,
a warning naming the failure is printed and the run continues to the
conclusion banner, for every write outcome; in fixed_scraper main the same
failure propagates and terminates the run. -/
theorem C9_write_failure_handling (e : String) (w : Except String Unit) :
    simpleMainTail (Except.error e)
        = Except.ok (("⚠️  Warning: Could not save results to file: " ++ e) ::
            "   Results are still displayed above." ::
            [ "🎯 CONCLUSION: The pagination URLs are not working because the site"
            , "   structure has changed. Use the working endpoints found above"
            , "   or contact the site administrator for current URL structure." ]) ∧
    (∃ lines, simpleMainTail w = Except.ok lines) ∧
    fixedMainTail (Except.error e) = Except.error e := by
  refine ⟨rfl, ?_, rfl⟩
  cases w with
  | ok u => exact ⟨_, rfl⟩
  | error e2 => exact ⟨_, rfl⟩

/-- C10: a probe result has success true and no error key exactly when the
request raised no exception, success false with an error key otherwise,
and its status_code key is absent exactly when the failure was not an
HTTPError. -/
theorem C10_probe_result_shape (ctx : ProbeCtx) (url : String) :
    ((test_url ctx url).success = true ∧ (test_url ctx url).error = none ↔
        ∃ code body hdrs, ctx url = ProbeOutcome.httpResponse code body hdrs) ∧
    ((test_url ctx url).success = false ∧ ((test_url ctx url).error).isSome = true ↔
        ¬ ∃ code body hdrs, ctx url = ProbeOutcome.httpResponse code body hdrs) ∧
    ((test_url ctx url).status_code = none ↔ ∃ desc, ctx url = ProbeOutcome.netError desc) := by
  cases hctx : ctx url with
  | httpResponse code body hdrs => simp [test_url, hctx]
  | httpError code reason body => simp [test_url, hctx]
  | netError desc => simp [test_url, hctx]

/-- C10 witness: the status-code clause evaluated at a network failure. -/
theorem C10_probe_result_shape_witness :
    (test_url (fun _ => ProbeOutcome.netError "dns failure") "http://x").status_code = none ↔
      ∃ desc, (fun _ => ProbeOutcome.netError "dns failure" : ProbeCtx) "http://x"
          = ProbeOutcome.netError desc :=
  (C10_probe_result_shape (fun _ => ProbeOutcome.netError "dns failure") "http://x").2.2

end Scraper
